import Mathlib

/-!
Verification of the Battlemaster labeler core against its design document.

The development shallowly embeds the event-dispatch, deduplication, cursor,
catalog and shutdown logic of src/main.ts, src/labels.ts, src/schemas.ts and
the label pipeline exercised by tests/schema_test.ts. The repository contains
two historical snapshots of main.ts and labels.ts; the later snapshot (the one
with the dedup cache, the connected-gated checkpoint, the guarded shutdown
sequence and the concrete 13-character rkeys) is taken as the current program,
and the earlier snapshot's cursor loader (initializeCursor) is embedded as
well because the cursor claims reference it.

JavaScript is modelled as follows: strings are Lean String, numbers that hold
times and cursors are Nat (they are nonnegative millisecond or microsecond
counts well below 2^53, so no overflow modelling is needed; subtraction that
can go negative is done in Int), JS split / includes / parseInt are embedded
as executable functions on List Char, and functions that can throw return
Except.
-/

namespace Battlemaster

/-! ## JavaScript string primitives used by the source -/

/-- Model of one JS string split step on a single-character separator, on the
character list of the string, mirroring String.prototype.split with a
one-character separator: splitting the empty string yields one empty field,
and every occurrence of the separator starts a new field. -/
def splitOnChar (sep : Char) : List Char → List (List Char)
  | [] => [[]]
  | c :: rest =>
    if c = sep then [] :: splitOnChar sep rest
    else
      match splitOnChar sep rest with
      | h :: t => (c :: h) :: t
      | [] => [[c]]

/-- JS s.split(sep) for a one-character separator. -/
def jsSplit (s : String) (sep : Char) : List String :=
  (splitOnChar sep s.toList).map (fun cs => String.mk cs)

/-- Boolean list-prefix test, the computational core of JS startsWith. -/
def strHasPrefix : List Char → List Char → Bool
  | [], _ => true
  | _ :: _, [] => false
  | p :: ps, c :: cs => p = c && strHasPrefix ps cs

/-- Boolean list-infix test, the computational core of JS String.includes. -/
def strHasInfix (pat : List Char) : List Char → Bool
  | [] => strHasPrefix pat []
  | c :: cs => strHasPrefix pat (c :: cs) || strHasInfix pat cs

/-- JS s.includes(sub): sub occurs as a contiguous substring of s. -/
def jsIncludes (s sub : String) : Bool :=
  strHasInfix sub.toList s.toList

/-- Collect the value of a leading run of decimal digits, if any. -/
def digitsPrefixVal : List Char → Option Nat → Option Nat
  | [], acc => acc
  | c :: rest, acc =>
    if c.isDigit then
      digitsPrefixVal rest (some ((acc.getD 0) * 10 + (c.toNat - 48)))
    else acc

/-- JS parseInt in base 10: skip leading spaces, read an optional sign and a
maximal run of decimal digits; none models NaN (no digits at all). -/
def jsParseInt (s : String) : Option Int :=
  match s.toList.dropWhile (fun c => c = ' ') with
  | '-' :: rest => (digitsPrefixVal rest none).map (fun n => -(n : Int))
  | '+' :: rest => (digitsPrefixVal rest none).map (fun n => (n : Int))
  | chars => (digitsPrefixVal chars none).map (fun n => (n : Int))

/-! ## Event structure validation (isValidEvent, main.ts) -/

/-- Untyped JS values, as far as isValidEvent inspects them. -/
inductive JsValue where
  | vundef
  | vnull
  | vbool (b : Bool)
  | vnum (n : Int)
  | vstr (s : String)
  | vobj (fields : List (String × JsValue))
  | varr (elems : List JsValue)

/-- Lookup of a named field in a JS object literal; a missing field reads as
undefined. -/
def lookupField : List (String × JsValue) → String → JsValue
  | [], _ => JsValue.vundef
  | (k, v) :: rest, key => if k = key then v else lookupField rest key

/-- JS property access e.k as performed by isValidEvent: objects yield the
field or undefined, arrays have none of the accessed named fields, and the
guarded code never accesses fields of other values. -/
def getField : JsValue → String → JsValue
  | JsValue.vobj fields, key => lookupField fields key
  | _, _ => JsValue.vundef

/-- The combined JS test typeof v === that object-and-not-null shape used
throughout isValidEvent (typeof null is also the string object, so the null
case is excluded separately in the source and here). -/
def isObjectNonNull : JsValue → Bool
  | JsValue.vobj _ => true
  | JsValue.varr _ => true
  | _ => false

/-- The JS test typeof v === string. -/
def isStringVal : JsValue → Bool
  | JsValue.vstr _ => true
  | _ => false

/-- Embedding of isValidEvent from main.ts: the guard returns false unless the
event is a non-null object carrying a string did, an object commit with an
object record holding an object subject with a string uri. It is a total
boolean function, mirroring that the source performs only typeof tests and
guarded property accesses and cannot throw. -/
def isValidEvent (event : JsValue) : Bool :=
  if isObjectNonNull event then
    isStringVal (getField event "did") &&
    isObjectNonNull (getField event "commit") &&
    isObjectNonNull (getField (getField event "commit") "record") &&
    isObjectNonNull (getField (getField (getField event "commit") "record") "subject") &&
    isStringVal
      (getField (getField (getField (getField event "commit") "record") "subject") "uri")
  else false

/-! ## Dedup cache and event dispatch (main.ts, current snapshot) -/

/-- Interval for cleaning up expired events from the deduplication cache,
5 minutes in milliseconds (main.ts). -/
def CACHE_CLEANUP_INTERVAL : Nat := 300000

/-- Duration to retain processed events in the cache, 1 hour in milliseconds
(main.ts). -/
def EVENT_RETENTION_DURATION : Nat := 3600000

/-- The typed shape of a create event once isValidEvent has accepted it: the
fields the dispatch path reads. -/
structure JetEvent where
  did : String
  rev : String
  subjectUri : String
deriving DecidableEq

/-- Embedding of generateEventId from main.ts: the dedup identifier is the
template string did colon rev colon Date.now(), with the receipt time in
milliseconds rendered in decimal. -/
def generateEventId (e : JetEvent) (now : Nat) : String :=
  e.did ++ ":" ++ e.rev ++ ":" ++ toString now

/-- JS array destructuring of the colon split taking the element at index 2,
then parseInt, then the age test now - eventTime > retention, as in the
cache-cleanup interval body in main.ts. A NaN from parseInt (none here)
makes the comparison false, so the entry is not deleted; likewise when the id
has fewer than three colon-separated fields. -/
def sweepDeletes (now : Nat) (eventId : String) : Bool :=
  match (jsSplit eventId ':')[2]? with
  | none => false
  | some timeStr =>
    match jsParseInt timeStr with
    | none => false
    | some t => decide ((now : Int) - t > (EVENT_RETENTION_DURATION : Int))

/-- One run of the cache-cleanup interval body from main.ts over the current
contents of processedEvents: every id whose parsed age exceeds the retention
window is deleted, the rest are kept. -/
def cacheCleanup (now : Nat) (cache : List String) : List String :=
  cache.filter (fun id => !(sweepDeletes now id))

/-- The last segment of the subject uri: split on the slash and take the last
element, as uri.split(slash).pop() does in main.ts; the subsequent falsy test
in the source rejects the empty string. -/
def lastUriSegment (uri : String) : String :=
  (jsSplit uri '/').getLastD ""

/-- Embedding of the onCreate listener body from the current snapshot of
main.ts for a structurally valid event. In order it: computes the dedup id
from the event and the receipt time, skips the event if the id is already in
processedEvents, gates on subject.uri containing the configured DID, extracts
the trailing uri segment as the rkey and drops the event when it is empty,
and otherwise hands (did, rkey) to labeler.handleLike. The returned pair is
the cache after the handler ran (the source never inserts into
processedEvents, which this embedding reproduces) together with the
handleLike argument pair when the call was made. The DidSchema and RkeySchema
parses sit between extraction and the call; their definitions are not part of
the repository and they are deterministic in the event alone, so they are
embedded as pass-through and do not affect the dedup question settled here. -/
def processCreateEvent (cfgDid : String) (cache : List String) (e : JetEvent)
    (now : Nat) : List String × Option (String × String) :=
  let eventId := generateEventId e now
  if cache.contains eventId then (cache, none)
  else if jsIncludes e.subjectUri cfgDid then
    let rkey := lastUriSegment e.subjectUri
    if rkey = "" then (cache, none)
    else (cache, some (e.did, rkey))
  else (cache, none)

/-- The subject-ownership property as the design document words it: the
subject uri is authored under the labeling authority's content namespace,
i.e. it is an at uri whose authority component is the configured DID. Stated
for comparison with the containment test the source actually performs. -/
def authoredUnder (did uri : String) : Bool :=
  strHasPrefix ("at://" ++ did ++ "/").toList uri.toList

/-! ## Cursor store (initializeCursor and the startup path of main) -/

/-- Embedding of initializeCursor from the earlier snapshot of main.ts: when
the durable store holds no cursor, the value now times 1000 (microseconds) is
persisted and returned (the boolean records that a write happened); when a
cursor is stored it is returned unchanged and nothing is written. -/
def initializeCursor (stored : Option Nat) (nowMs : Nat) : Nat × Bool :=
  match stored with
  | none => (nowMs * 1000, true)
  | some c => (c, false)

/-- Embedding of the cursor block at the top of main in the current snapshot
of main.ts: the expected cursor is now times 1000, and a stored configuration
cursor strictly below it is replaced by it, otherwise kept. -/
def startupCursorPolicy (configCursor : Nat) (nowMs : Nat) : Nat :=
  let expectedCursor := nowMs * 1000
  if configCursor < expectedCursor then expectedCursor else configCursor

/-- JS truthiness of jetstream.cursor: present and nonzero. -/
def jsTruthyCursor : Option Nat → Bool
  | none => false
  | some n => n != 0

/-- Embedding of the body of the interval installed by
setupCursorUpdateInterval in the current snapshot of main.ts: the cursor is
persisted exactly when jetstream.cursor is truthy and handler.connected
holds; the result is the value written to the durable store, none when no
write happens. -/
def cursorTick (cursor : Option Nat) (connected : Bool) : Option Nat :=
  if jsTruthyCursor cursor && connected then cursor else none

/-! ## Shutdown coordinator (setupShutdownHandlers, current snapshot) -/

/-- The failure behavior of the drain steps during one shutdown run: whether
handler.shutdown rejects before the 7 second timer fires, whether it is still
pending when the timer fires, and whether the two remaining drain steps
reject. -/
structure ShutdownBehavior where
  handlerFailsWithinDeadline : Bool
  handlerExceedsDeadline : Bool
  labelerFails : Bool
  closeConfigFails : Bool
deriving DecidableEq

/-- Outcome of the try block of the shutdown closure in main.ts. The race of
handler.shutdown against the 7 second timer rejects only when the handler
rejects first; when the handler outlives the deadline the timer resolves and
execution proceeds past it. The later steps labeler.shutdown and closeConfig
reject according to the behavior flags. -/
def drainOutcome (b : ShutdownBehavior) : Except String Unit :=
  if b.handlerFailsWithinDeadline && !b.handlerExceedsDeadline then
    Except.error "handler shutdown error"
  else if b.labelerFails then Except.error "labeler shutdown error"
  else if b.closeConfigFails then Except.error "close config error"
  else Except.ok ()

/-- Embedding of the shutdown closure installed for SIGINT and SIGTERM in the
current snapshot of main.ts. The first component of the result is the
isShuttingDown guard after the call, the second the exit status passed to the
process exit call, none when the call returns without exiting (the repeated
signal path). The catch arm only logs, and the finally arm exits with 0 on
both the ok and the error outcome of the drain. -/
def shutdownOnce (b : ShutdownBehavior) (isShuttingDown : Bool) :
    Bool × Option Nat :=
  if isShuttingDown then (isShuttingDown, none)
  else
    match drainOutcome b with
    | Except.ok _ => (true, some 0)
    | Except.error _ => (true, some 0)

/-! ## Label catalog and schema (labels.ts, schemas.ts) -/

/-- Shape of one entry of the current LABELS catalog in labels.ts. -/
structure CatalogEntry where
  rkey : String
  identifier : String
  category : String
deriving DecidableEq

/-- The current LABELS catalog from labels.ts, verbatim: the three category
labels and the label-removal entry. -/
def LABELS : List CatalogEntry :=
  [ { rkey := "3l7jxzftheq2o", identifier := "pvp", category := "pvp" },
    { rkey := "3l7jy25rx3t2s", identifier := "pve", category := "pve" },
    { rkey := "3l7jy2pqpz72p", identifier := "rp", category := "rp" },
    { rkey := "3l7jy2zq3z2qo", identifier := "", category := "" } ]

/-- A locale triple as required by LocaleSchema in schemas.ts. -/
structure Locale where
  lang : String
  name : String
  description : String
deriving DecidableEq

/-- The shape LabelSchema in schemas.ts parses. -/
structure LabelShape where
  rkey : String
  identifier : String
  locales : List Locale
deriving DecidableEq

/-- LocaleSchema from schemas.ts: lang at least 2 characters, name and
description nonempty. -/
def localeSchemaOk (l : Locale) : Bool :=
  decide (2 ≤ l.lang.length) && decide (1 ≤ l.name.length) &&
    decide (1 ≤ l.description.length)

/-- LabelSchema from schemas.ts: rkey of exactly 13 characters, a nonempty
identifier, and a nonempty list of valid locales. -/
def labelSchemaOk (l : LabelShape) : Bool :=
  decide (l.rkey.length = 13) && decide (1 ≤ l.identifier.length) &&
    decide (1 ≤ l.locales.length) && l.locales.all localeSchemaOk

/-- A current catalog entry presented to LabelSchema: it carries no locales
field at all, so the required locales array reads as absent, modelled by the
empty list, which the nonempty constraint rejects just as the zod parse of a
missing array does. -/
def catalogEntryAsLabel (e : CatalogEntry) : LabelShape :=
  { rkey := e.rkey, identifier := e.identifier, locales := [] }

/-! ## Category validation and the label pipeline (schema_test.ts) -/

/-- The closed category enumeration from schemas.ts. -/
inductive Category where
  | pvp
  | pve
  | rp
deriving DecidableEq

/-- The string name of a category, the identity mapping underlying the
CATEGORY_PREFIXES record of schemas.ts. -/
def catToString : Category → String
  | Category.pvp => "pvp"
  | Category.pve => "pve"
  | Category.rp => "rp"

/-- Object.keys(CATEGORY_PREFIXES) from schemas.ts. -/
def categoryKeys : List String := ["pvp", "pve", "rp"]

/-- The TS as-cast of a member string to the Category union: exact, never
coercing. -/
def castToCategory : String → Option Category
  | "pvp" => some Category.pvp
  | "pve" => some Category.pve
  | "rp" => some Category.rp
  | _ => none

/-- Embedding of getCategoryFromLabel from the Battlemaster pipeline in
tests/schema_test.ts: membership of the identifier in the category keys
yields the identifier as a Category, anything else throws. -/
def getCategoryFromLabel (label : String) : Except String Category :=
  if categoryKeys.contains label then
    match castToCategory label with
    | some c => Except.ok c
    | none => Except.error ("Invalid label: " ++ label)
  else Except.error ("Invalid label: " ++ label)

/-- One createLabel request issued to the labeling service. -/
structure LabelCall where
  uri : String
  val : String
  category : Category
deriving DecidableEq

/-- findLabelByPost from the pipeline in tests/schema_test.ts: first catalog
entry whose rkey equals the trigger key. -/
def findLabelByPost (rkey : String) : Option CatalogEntry :=
  LABELS.find? (fun l => l.rkey == rkey)

/-- addOrUpdateLabel from the pipeline in tests/schema_test.ts: an unmatched
rkey logs and makes no call, a matched one has its identifier validated to a
category (propagating the validation error) and issues one createLabel call
naming the triggering subject. -/
def addOrUpdateLabel (subject rkey : String) : Except String (List LabelCall) :=
  match findLabelByPost rkey with
  | none => Except.ok []
  | some l =>
    match getCategoryFromLabel l.identifier with
    | Except.ok c => Except.ok [{ uri := subject, val := l.identifier, category := c }]
    | Except.error m => Except.error m

/-- The label operation from the pipeline in tests/schema_test.ts: the
self-trigger guard returns at once on the rkey self without touching the
labeling service, otherwise the add-or-update path runs. The result lists the
createLabel calls issued. -/
def label (subject rkey : String) : Except String (List LabelCall) :=
  if rkey == "self" then Except.ok []
  else addOrUpdateLabel subject rkey

/-! ## Supporting lemmas -/

/-- The boolean prefix test agrees with the list prefix relation. -/
theorem strHasPrefix_iff (p s : List Char) : strHasPrefix p s = true ↔ p <+: s := by
  induction p generalizing s with
  | nil => simp [strHasPrefix, List.nil_prefix]
  | cons a ps ih =>
    cases s with
    | nil => simp [strHasPrefix, List.prefix_nil]
    | cons c cs =>
      simp [strHasPrefix, List.cons_prefix_cons, ih, Bool.and_eq_true,
        decide_eq_true_iff]

/-- The boolean infix test agrees with the list infix relation. -/
theorem strHasInfix_iff (p s : List Char) : strHasInfix p s = true ↔ p <:+: s := by
  induction s with
  | nil => simp [strHasInfix, strHasPrefix_iff, List.infix_nil, List.prefix_nil]
  | cons c cs ih =>
    simp [strHasInfix, strHasPrefix_iff, ih, List.infix_cons_iff, Bool.or_eq_true]

/-- String append corresponds to append of the character lists. -/
theorem string_toList_append (a b : String) :
    (a ++ b).toList = a.toList ++ b.toList :=
  String.data_append a b

/-- Membership test of the category keys, in propositional form. -/
theorem contains_categoryKeys (s : String) :
    categoryKeys.contains s = true ↔ s = "pvp" ∨ s = "pve" ∨ s = "rp" := by
  constructor
  · intro hk
    obtain ⟨a, ha, hbeq⟩ := List.contains_iff_exists_mem_beq.mp hk
    have hsa : s = a := beq_iff_eq.mp hbeq
    subst hsa
    simpa [categoryKeys] using ha
  · rintro (rfl | rfl | rfl) <;> decide

/-! ## Claim theorems -/

/-- Claim C1, evaluated at the failing input: for the catalog-matching event
with actor did:plc:abc and revision rev1 on a subject owned by the authority,
delivered at 0 ms and redelivered at 1 ms, the listener leaves the dedup
cache empty after the first delivery (nothing is ever inserted into
processedEvents) and issues a handleLike call on both deliveries, and the two
dedup identifiers differ because the receipt time is part of the identifier.
This contradicts the claim that exactly one label-application call is issued
and that the identifier is redelivery-stable. -/
theorem C1_dedup_ineffective :
    processCreateEvent "did:plc:abc" []
        { did := "did:plc:abc", rev := "rev1",
          subjectUri := "at://did:plc:abc/app.bsky.feed.post/3l7jxzftheq2o" } 0
      = ([], some ("did:plc:abc", "3l7jxzftheq2o")) ∧
    processCreateEvent "did:plc:abc"
        (processCreateEvent "did:plc:abc" []
          { did := "did:plc:abc", rev := "rev1",
            subjectUri := "at://did:plc:abc/app.bsky.feed.post/3l7jxzftheq2o" } 0).1
        { did := "did:plc:abc", rev := "rev1",
          subjectUri := "at://did:plc:abc/app.bsky.feed.post/3l7jxzftheq2o" } 1
      = ([], some ("did:plc:abc", "3l7jxzftheq2o")) ∧
    generateEventId
        { did := "did:plc:abc", rev := "rev1",
          subjectUri := "at://did:plc:abc/app.bsky.feed.post/3l7jxzftheq2o" } 0
      ≠ generateEventId
        { did := "did:plc:abc", rev := "rev1",
          subjectUri := "at://did:plc:abc/app.bsky.feed.post/3l7jxzftheq2o" } 1 := by
  refine ⟨?_, ?_, ?_⟩ <;> decide

/-- Counterexample for claim C2: with a stored cursor 1000 present and the
startup time at 2 ms, the startup path of the current main does not return
the stored cursor but advances it. -/
theorem C2_counterexample : startupCursorPolicy 1000 2 ≠ 1000 := by decide

/-- Claim C2 as amended: initializeCursor (the cursor-store load of the
earlier snapshot) returns a stored cursor unchanged without writing, and only
when none is stored persists and returns a cursor initialized to the current
time in microseconds; but the startup path of the current main advances a
stored configuration cursor to the maximum of its value and the current time
in microseconds, silently discarding any backlog gap when the stored cursor
is older than now. -/
theorem C2_cursor_startup :
    ∀ stored nowMs : Nat,
      initializeCursor (some stored) nowMs = (stored, false) ∧
      initializeCursor none nowMs = (nowMs * 1000, true) ∧
      startupCursorPolicy stored nowMs = max stored (nowMs * 1000) := by
  intro stored nowMs
  refine ⟨rfl, rfl, ?_⟩
  unfold startupCursorPolicy
  dsimp only
  split
  · next h => omega
  · next h => omega

/-- Claim C3, evaluated at the failing input: the dedup identifier generated
for actor did:plc:abc and revision rev1 at insertion time 0 is
did:plc:abc:rev1:0; the retention window has elapsed by time 7200000 (two
hours later); yet the cache-cleanup sweep run at that time keeps the entry,
because the third colon-separated token of the identifier is the tail of the
did rather than the timestamp, parseInt on it yields NaN, and the age test is
false. This contradicts the claim that entries are absent from the cache once
the retention window has passed and that the sweep removes exactly the
entries older than the window. -/
theorem C3_sweep_never_removes :
    generateEventId
        { did := "did:plc:abc", rev := "rev1",
          subjectUri := "at://did:plc:abc/app.bsky.feed.post/3l7jxzftheq2o" } 0
      = "did:plc:abc:rev1:0" ∧
    0 + EVENT_RETENTION_DURATION ≤ 7200000 ∧
    cacheCleanup 7200000 ["did:plc:abc:rev1:0"] = ["did:plc:abc:rev1:0"] := by
  refine ⟨?_, ?_, ?_⟩ <;> decide

/-- Claim C4: when the one-shot guard is not yet set, the shutdown sequence
installed for the interrupt and terminate signals sets the guard and exits
the process with status 0, whatever combination of drain-step failures or
deadline overruns occurs (the catch arm only logs and the finally arm always
exits 0); when the guard is already set, a further signal returns without any
effect and without exiting. -/
theorem C4_shutdown_guard :
    ∀ (b : ShutdownBehavior) (g : Bool),
      (g = false → shutdownOnce b g = (true, some 0)) ∧
      (g = true → shutdownOnce b g = (true, none)) := by
  intro b g
  constructor
  · rintro rfl
    unfold shutdownOnce
    cases h : drainOutcome b <;> simp [h]
  · rintro rfl
    rfl

/-- Witness for claim C4 at a run where every drain step misbehaves: the
first signal still exits 0 and the second is a no-op. -/
theorem C4_shutdown_guard_witness :
    shutdownOnce
        { handlerFailsWithinDeadline := true, handlerExceedsDeadline := true,
          labelerFails := true, closeConfigFails := true } false = (true, some 0) ∧
    shutdownOnce
        { handlerFailsWithinDeadline := true, handlerExceedsDeadline := true,
          labelerFails := true, closeConfigFails := true } true = (true, none) :=
  ⟨(C4_shutdown_guard
      { handlerFailsWithinDeadline := true, handlerExceedsDeadline := true,
        labelerFails := true, closeConfigFails := true } false).1 rfl,
   (C4_shutdown_guard
      { handlerFailsWithinDeadline := true, handlerExceedsDeadline := true,
        labelerFails := true, closeConfigFails := true } true).2 rfl⟩

/-- Claim C5: the periodic checkpoint body persists the cursor only while the
connection manager reports connected; at a tick with connected false nothing
is written, and at a tick with connected true and an available (truthy)
cursor the current cursor value is written. -/
theorem C5_checkpoint_gated :
    ∀ (cursor : Option Nat) (connected : Bool),
      (connected = false → cursorTick cursor connected = none) ∧
      (connected = true → jsTruthyCursor cursor = true →
        cursorTick cursor connected = cursor) := by
  intro cursor connected
  constructor
  · rintro rfl
    simp [cursorTick]
  · rintro rfl h
    simp [cursorTick, h]

/-- Witness for claim C5 at the cursor value 5: disconnected ticks write
nothing, a connected tick writes the cursor. -/
theorem C5_checkpoint_gated_witness :
    cursorTick (some 5) false = none ∧ cursorTick (some 5) true = some 5 :=
  ⟨(C5_checkpoint_gated (some 5) false).1 rfl,
   (C5_checkpoint_gated (some 5) true).2 rfl (by decide)⟩

/-- Counterexample for claim C6: the label-removal entry is a member of the
current catalog, and it does not validate against LabelSchema (its identifier
is empty, and like every current entry it carries no locales). -/
theorem C6_counterexample :
    ({ rkey := "3l7jy2zq3z2qo", identifier := "", category := "" } : CatalogEntry)
        ∈ LABELS ∧
    labelSchemaOk
        (catalogEntryAsLabel
          { rkey := "3l7jy2zq3z2qo", identifier := "", category := "" }) = false := by
  refine ⟨?_, ?_⟩ <;> decide

/-- Claim C6 as amended: every entry of the current catalog has a trigger key
of exactly 13 characters, but the catalog does not validate against the label
schema — at least one entry (the label-removal entry, with its empty
identifier and, as with all current entries, no locales) fails LabelSchema,
and the current labels module performs no schema validation at load. -/
theorem C6_catalog_rkeys :
    (LABELS.all fun e => e.rkey.length == 13) = true ∧
    (LABELS.all fun e => labelSchemaOk (catalogEntryAsLabel e)) = false := by
  refine ⟨?_, ?_⟩ <;> decide

/-- Claim C7: getCategoryFromLabel maps an identifier to a category exactly
when it is a member of the closed enumeration pvp, pve, rp, producing the
validation error for any other identifier; and whenever it succeeds the
produced category names the identifier itself (no coercion) and is one of the
three fixed categories. -/
theorem C7_validateCategory :
    (∀ s, categoryKeys.contains s = false →
      getCategoryFromLabel s = Except.error ("Invalid label: " ++ s)) ∧
    (∀ s c, getCategoryFromLabel s = Except.ok c →
      catToString c = s ∧
        (c = Category.pvp ∨ c = Category.pve ∨ c = Category.rp)) := by
  constructor
  · intro s h
    have hc : ¬ categoryKeys.contains s = true := by
      intro hc
      rw [h] at hc
      exact Bool.noConfusion hc
    unfold getCategoryFromLabel
    rw [if_neg hc]
  · intro s c h
    have hs : s = "pvp" ∨ s = "pve" ∨ s = "rp" := by
      by_contra hs
      have hc : ¬ categoryKeys.contains s = true := fun hc =>
        hs ((contains_categoryKeys s).mp hc)
      unfold getCategoryFromLabel at h
      rw [if_neg hc] at h
      exact Except.noConfusion h
    rcases hs with rfl | rfl | rfl
    · simp only [show getCategoryFromLabel "pvp" = Except.ok Category.pvp from rfl,
        Except.ok.injEq] at h
      subst h
      exact ⟨rfl, Or.inl rfl⟩
    · simp only [show getCategoryFromLabel "pve" = Except.ok Category.pve from rfl,
        Except.ok.injEq] at h
      subst h
      exact ⟨rfl, Or.inr (Or.inl rfl)⟩
    · simp only [show getCategoryFromLabel "rp" = Except.ok Category.rp from rfl,
        Except.ok.injEq] at h
      subst h
      exact ⟨rfl, Or.inr (Or.inr rfl)⟩

/-- Witness for claim C7: an identifier outside the enumeration is rejected
with the validation error, and the identifier pvp is mapped to the category
that names it. -/
theorem C7_validateCategory_witness :
    getCategoryFromLabel "zzz" = Except.error ("Invalid label: " ++ "zzz") ∧
    (catToString Category.pvp = "pvp" ∧
      (Category.pvp = Category.pvp ∨ Category.pvp = Category.pve ∨
        Category.pvp = Category.rp)) :=
  ⟨C7_validateCategory.1 "zzz" (by decide),
   C7_validateCategory.2 "pvp" Category.pvp rfl⟩

/-- Counterexample for claim C8: a subject uri authored by the unrelated
account did:plc:abcdef is not authored under the namespace of the configured
authority did:plc:abc, yet because the configured DID occurs inside it as a
substring the listener does not ignore the event — trigger extraction runs
and handleLike is called. -/
theorem C8_counterexample :
    authoredUnder "did:plc:abc"
        "at://did:plc:abcdef/app.bsky.feed.post/3l7jxzftheq2o" = false ∧
    (processCreateEvent "did:plc:abc" []
        { did := "did:plc:viewer", rev := "rev9",
          subjectUri := "at://did:plc:abcdef/app.bsky.feed.post/3l7jxzftheq2o" } 0).2
      = some ("did:plc:viewer", "3l7jxzftheq2o") := by
  refine ⟨?_, ?_⟩ <;> decide

/-- Claim C8 as amended: the ownership gate of the listener tests substring
containment of the configured DID in the subject uri, not authorship. Every
event whose subject uri does not contain the DID is ignored with no trigger
extraction and no handleLike call, and every uri genuinely authored under the
authority namespace contains the DID and so passes the gate; but containment
is strictly weaker than authorship, as the counterexample shows. -/
theorem C8_ownership_gate :
    (∀ (cfgDid : String) (cache : List String) (e : JetEvent) (now : Nat),
      jsIncludes e.subjectUri cfgDid = false →
        (processCreateEvent cfgDid cache e now).2 = none) ∧
    (∀ d u, authoredUnder d u = true → jsIncludes u d = true) := by
  constructor
  · intro cfgDid cache e now h
    unfold processCreateEvent
    dsimp only
    rw [h]
    split <;> rfl
  · intro d u h
    rw [authoredUnder, strHasPrefix_iff] at h
    rw [jsIncludes, strHasInfix_iff]
    have h2 : d.toList <:+: ("at://" ++ d ++ "/").toList := by
      rw [string_toList_append, string_toList_append]
      exact List.infix_append _ _ _
    exact h2.trans h.isInfix

/-- Witness for claim C8: an event whose subject uri does not contain the
configured DID produces no handleLike call, and a uri authored under the
authority namespace passes the containment gate. -/
theorem C8_ownership_gate_witness :
    (processCreateEvent "did:plc:abc" []
        { did := "did:plc:viewer", rev := "rev9",
          subjectUri := "at://did:plc:other/app.bsky.feed.post/3k" } 0).2 = none ∧
    jsIncludes "at://did:plc:abc/app.bsky.feed.post/3k" "did:plc:abc" = true :=
  ⟨C8_ownership_gate.1 "did:plc:abc" []
      { did := "did:plc:viewer", rev := "rev9",
        subjectUri := "at://did:plc:other/app.bsky.feed.post/3k" } 0 (by decide),
   C8_ownership_gate.2 "did:plc:abc"
      "at://did:plc:abc/app.bsky.feed.post/3k" (by decide)⟩

/-- Claim C9: for a self-trigger (the self-referential marker rkey, in
particular when the subject is the labeling authority itself), the label
operation returns at once with no createLabel call issued and without
contacting the labeling service. -/
theorem C9_self_trigger_guard :
    ∀ subject : String, label subject "self" = Except.ok [] := by
  intro subject
  rfl

/-- Claim C10: isValidEvent is a total boolean guard — it returns false on
null, on every non-object value (strings, numbers, booleans, undefined), and
it returns true exactly when the event is a non-null object with a string
did, an object commit holding an object record holding an object subject, and
a string uri on that subject; so structurally malformed events are rejected
before the dispatch path touches any deep field. -/
theorem C10_isValidEvent_guard :
    isValidEvent JsValue.vnull = false ∧
    isValidEvent JsValue.vundef = false ∧
    (∀ s, isValidEvent (JsValue.vstr s) = false) ∧
    (∀ n, isValidEvent (JsValue.vnum n) = false) ∧
    (∀ b, isValidEvent (JsValue.vbool b) = false) ∧
    (∀ e, isValidEvent e = true ↔
      (isObjectNonNull e = true ∧
        isStringVal (getField e "did") = true ∧
        isObjectNonNull (getField e "commit") = true ∧
        isObjectNonNull (getField (getField e "commit") "record") = true ∧
        isObjectNonNull
          (getField (getField (getField e "commit") "record") "subject") = true ∧
        isStringVal
          (getField (getField (getField (getField e "commit") "record") "subject")
            "uri") = true)) := by
  refine ⟨rfl, rfl, fun s => rfl, fun n => rfl, fun b => rfl, fun e => ?_⟩
  by_cases h : isObjectNonNull e = true
  · simp [isValidEvent, h, Bool.and_eq_true, and_assoc]
  · rw [Bool.not_eq_true] at h
    simp [isValidEvent, h]

end Battlemaster
